import Mathlib

/-
Verification of the static file server in `src/web/serve.py`.

The script itself (26 lines) fixes a port and a base directory, subclasses
the standard library's file-serving request handler to pin that directory,
enables address reuse on the server class, and runs a blocking accept loop
until a keyboard interrupt.  The request-handling, bind and accept-loop
behaviour is delegated to the Python standard library (http.server,
socketserver), which is not part of this repository; those parts are
modelled from the specification (doc comments starting `Modelled from the
spec:`), while the constants, prints and control flow of serve.py are
embedded directly from the source.
-/

namespace Serve

/-- `PORT = 8000` (serve.py line 8). -/
def PORT : Nat := 8000

/-- A path segment (one component of a filesystem or URL path). -/
abbrev Seg := String

/-- A filesystem path, as its list of segments from the root. -/
abbrev FsPath := List Seg

/-- `DIRECTORY = os.path.dirname(os.path.abspath(__file__))` (serve.py
line 9): the absolute path of the directory containing the script, i.e.
the script's absolute path with its final segment removed. -/
def DIRECTORY (scriptPath : FsPath) : FsPath := scriptPath.dropLast

/-- Contents and readability of one file on disk. -/
structure FileData where
  bytes : List Nat
  readable : Bool
deriving DecidableEq, Repr

/-- A filesystem: a finite association of absolute paths to files. -/
abbrev Filesystem := List (FsPath × FileData)

/-- Look a path up in the filesystem (first matching entry). -/
def lookupFS (fs : Filesystem) (p : FsPath) : Option FileData :=
  (fs.find? (fun e => e.1 == p)).map Prod.snd

/-- Modelled from the spec: the standard library handler (not in src/)
"map[s] the requested URL path onto a file path under the base directory"
and "reject[s] path traversal outside the base directory".  URL segments
are resolved left to right onto an accumulator of already-resolved
segments: empty segments and `.` are ignored, `..` removes the last
resolved segment and is a traversal escape (resolution fails) when there
is no segment left to remove, and any other segment is appended. -/
def resolveSegs : List Seg → List Seg → Option (List Seg)
  | [], acc => some acc
  | s :: rest, acc =>
    if s = "" ∨ s = "." then resolveSegs rest acc
    else if s = ".." then
      match acc with
      | [] => none
      | _ :: _ => resolveSegs rest acc.dropLast
    else resolveSegs rest (acc ++ [s])

/-- Resolve a requested URL path (its segments) to a path relative to the
base directory, or `none` on a traversal escape. -/
def resolvePath (segs : List Seg) : Option (List Seg) := resolveSegs segs []

/-- Modelled from the spec: the handler responds "with an inferred content
type"; the type is inferred from the file-name suffix. -/
def guessType (name : Seg) : String :=
  if name.endsWith ".html" ∨ name.endsWith ".htm" then "text/html"
  else if name.endsWith ".css" then "text/css"
  else if name.endsWith ".js" then "text/javascript"
  else if name.endsWith ".json" then "application/json"
  else if name.endsWith ".png" then "image/png"
  else "application/octet-stream"

/-- One HTTP response: status code, body bytes, inferred content type. -/
structure Response where
  status : Nat
  body : List Nat
  contentType : Option String
deriving DecidableEq, Repr

/-- Modelled from the spec: the file-serving handler scoped to the base
directory (serve.py lines 11-13 merely pin `directory=DIRECTORY` on the
library handler, which is not in src/): "respond with file bytes and an
inferred content type on success; respond with a 404-equivalent status
when the path does not resolve to an existing file; respond with a
403-equivalent status on a permission error; reject path traversal outside
the base directory". -/
def handleRequest (base : FsPath) (fs : Filesystem) (urlSegs : List Seg) :
    Response :=
  match resolvePath urlSegs with
  | none => { status := 404, body := [], contentType := none }
  | some rel =>
    match lookupFS fs (base ++ rel) with
    | none => { status := 404, body := [], contentType := none }
    | some fd =>
      if fd.readable then
        { status := 200, body := fd.bytes,
          contentType := some (guessType (rel.getLastD "")) }
      else { status := 403, body := [], contentType := none }

/-- A URL segment that names a plain file or directory component: not
empty, not `.`, not `..`. -/
abbrev simpleSeg (s : Seg) : Prop := s ≠ "" ∧ s ≠ "." ∧ s ≠ ".."

/-- Resolution appends simple segments to the accumulator unchanged. -/
theorem resolveSegs_simple (rel : List Seg) :
    ∀ acc, (∀ s ∈ rel, simpleSeg s) → resolveSegs rel acc = some (acc ++ rel) := by
  induction rel with
  | nil => intro acc _; simp [resolveSegs]
  | cons s rest ih =>
    intro acc h
    have hs : simpleSeg s := h s (by simp)
    obtain ⟨h1, h2, h3⟩ := hs
    have hrest : ∀ t ∈ rest, simpleSeg t := fun t ht => h t (by simp [ht])
    simp only [resolveSegs, h1, h2, h3, or_self, if_false, ite_false]
    rw [ih (acc ++ [s]) hrest]
    simp

/-- Modelled from the spec: `serve_forever` (library code, not in src/)
runs "a blocking accept loop, dispatching each connection to a standard
file-serving handler"; "individual request-handling errors are converted
to HTTP error responses and do not terminate the server", so every queued
connection is answered in order. -/
def serveLoop (base : FsPath) (fs : Filesystem) :
    List (List Seg) → List Response
  | [] => []
  | r :: rs => handleRequest base fs r :: serveLoop base fs rs

/-- The phases of handling one accepted connection. -/
inductive Phase where
  | accept
  | readReq
  | respond
  | close
deriving DecidableEq, Repr

/-- One observable event of the accept loop: a phase of connection `conn`. -/
structure Event where
  conn : Nat
  phase : Phase
deriving DecidableEq, Repr

/-- The four events of fully handling connection `i`: accept it, read the
request, compute and write the response, close the connection. -/
def connEvents (i : Nat) : List Event :=
  [⟨i, Phase.accept⟩, ⟨i, Phase.readReq⟩, ⟨i, Phase.respond⟩, ⟨i, Phase.close⟩]

/-- Modelled from the spec: "single accept loop; each connection is fully
handled (read request, compute response, write response, close) before the
next is accepted".  `traceFrom s n` is the event trace for connections
`s, s+1, ..., s+n-1`. -/
def traceFrom : Nat → Nat → List Event
  | _, 0 => []
  | s, n + 1 => connEvents s ++ traceFrom (s + 1) n

/-- The event trace of serving `n` connections, numbered from 0. -/
def serveTrace (n : Nat) : List Event := traceFrom 0 n

/-- The observable outcome of one run of the `__main__` block. -/
structure Outcome where
  startupLines : List String
  shutdownLines : List String
  exitCode : Nat
  socketClosed : Bool
  finalCwd : FsPath
  boundAddr : Option (String × Nat)
  reuseAddr : Bool
  bindAttempts : Nat
  responses : List Response
  events : List Event
deriving Repr

/-- The class-attribute assignment of serve.py line 16:
`socketserver.TCPServer.allow_reuse_address = True`. -/
def allowReuseAddress : Bool := true

/-- The `__main__` block of serve.py (lines 18-26): `os.chdir(DIRECTORY)`;
construct the `TCPServer` bound to `("", PORT)` with handler scoped to
`DIRECTORY` (one bind attempt; Modelled from the spec: "any bind failure
... is fatal and terminates the process with an error", with no startup
lines printed and no request served); on success print the two startup
lines, run `serve_forever` until the `KeyboardInterrupt`, and print
`"\nServer stopped."`; the `with` block closes the listening socket on
every exit, and the process exits 0 after a handled interrupt. -/
def runMain (scriptPath : FsPath) (bindOk : Bool) (fs : Filesystem)
    (requests : List (List Seg)) : Outcome :=
  let dir := DIRECTORY scriptPath
  if bindOk then
    { startupLines :=
        ["Serving chat app at http://localhost:" ++ toString PORT,
         "Press Ctrl+C to stop"],
      shutdownLines := ["\nServer stopped."],
      exitCode := 0,
      socketClosed := true,
      finalCwd := dir,
      boundAddr := some ("", PORT),
      reuseAddr := allowReuseAddress,
      bindAttempts := 1,
      responses := serveLoop dir fs requests,
      events := serveTrace requests.length }
  else
    { startupLines := [],
      shutdownLines := [],
      exitCode := 1,
      socketClosed := true,
      finalCwd := dir,
      boundAddr := none,
      reuseAddr := allowReuseAddress,
      bindAttempts := 1,
      responses := [],
      events := [] }

/-- The process state the module touches besides the socket: the
`TCPServer.allow_reuse_address` class attribute and the current working
directory. -/
structure PyState where
  tcpServerAllowReuseAddress : Bool
  cwd : FsPath
deriving DecidableEq, Repr

/-- Importing the module executes its top level (serve.py lines 4-16),
whose only externally visible assignment is line 16, setting the
`allow_reuse_address` class attribute of `socketserver.TCPServer`; the
`__main__` guard keeps lines 19-26 from running on a mere import. -/
def importModule (st : PyState) : PyState :=
  { st with tcpServerAllowReuseAddress := true }

/-- Modelled from the spec / library semantics: a class attribute applies
to every instance, so a new `TCPServer` instance reads its reuse behaviour
from the current class attribute in the process state. -/
def newServerReuseAddr (st : PyState) : Bool := st.tcpServerAllowReuseAddress

/-- The filesystem operations a request handler can perform. -/
inductive FsOp where
  | stat (p : FsPath)
  | readFile (p : FsPath)
  | writeFile (p : FsPath) (bytes : List Nat)
deriving DecidableEq, Repr

/-- Whether an operation mutates the filesystem. -/
def FsOp.isWrite : FsOp → Bool
  | .writeFile _ _ => true
  | _ => false

/-- Modelled from the spec: the filesystem operations the handler performs
for one request — it checks the resolved path and reads the file it
serves; "serves files read-only ...; no writes". -/
def handlerOps (base : FsPath) (fs : Filesystem) (urlSegs : List Seg) :
    List FsOp :=
  match resolvePath urlSegs with
  | none => []
  | some rel =>
    match lookupFS fs (base ++ rel) with
    | none => [FsOp.stat (base ++ rel)]
    | some fd =>
      if fd.readable then
        [FsOp.stat (base ++ rel), FsOp.readFile (base ++ rel)]
      else [FsOp.stat (base ++ rel)]

/-- Replace or add the file at `p`. -/
def insertFS (fs : Filesystem) (p : FsPath) (fd : FileData) : Filesystem :=
  (p, fd) :: fs.filter (fun e => e.1 != p)

/-- Effect of one operation on the filesystem: reads and stats leave it
unchanged, a write replaces the file's contents. -/
def applyOp (fs : Filesystem) : FsOp → Filesystem
  | .stat _ => fs
  | .readFile _ => fs
  | .writeFile p b => insertFS fs p ⟨b, true⟩

/-- Effect of a sequence of operations on the filesystem. -/
def applyOps (fs : Filesystem) (ops : List FsOp) : Filesystem :=
  ops.foldl applyOp fs

/-- The serving loop answers the requests pointwise with the handler. -/
theorem serveLoop_eq_map (base : FsPath) (fs : Filesystem) :
    ∀ rs : List (List Seg), serveLoop base fs rs = rs.map (handleRequest base fs) := by
  intro rs
  induction rs with
  | nil => rfl
  | cons r rest ih => simp [serveLoop, ih]

/-- Every event in `traceFrom s n` belongs to a connection numbered at
least `s`. -/
theorem mem_traceFrom_conn :
    ∀ (n s : Nat) (e : Event), e ∈ traceFrom s n → s ≤ e.conn := by
  intro n
  induction n with
  | zero => intro s e h; simp [traceFrom] at h
  | succ m ih =>
    intro s e h
    simp only [traceFrom, List.mem_append] at h
    rcases h with h | h
    · simp [connEvents] at h
      rcases h with h | h | h | h <;> subst h <;> exact le_refl s
    · exact Nat.le_of_succ_le (ih (s + 1) e h)

/-- Connection numbers are nondecreasing along the event trace: every
event of an earlier connection precedes every event of a later one. -/
theorem pairwise_traceFrom :
    ∀ (n s : Nat),
      List.Pairwise (fun a b : Event => a.conn ≤ b.conn) (traceFrom s n) := by
  intro n
  induction n with
  | zero => intro s; simp [traceFrom]
  | succ m ih =>
    intro s
    simp only [traceFrom]
    refine List.pairwise_append.mpr ⟨?_, ih (s + 1), ?_⟩
    · simp [connEvents]
    · intro a ha b hb
      have hb' : s + 1 ≤ b.conn := mem_traceFrom_conn m (s + 1) b hb
      have ha' : a.conn = s := by
        simp [connEvents] at ha
        rcases ha with h | h | h | h <;> subst h <;> rfl
      omega

/-- C1: for every request — in particular one whose URL path contains
traversal segments such as `../secret` — a 200 response serves a file
whose resolved path lies under the base directory: the body is the
contents of a file whose path extends `base`, never a file outside it. -/
theorem handleRequest_stays_in_base (base : FsPath) (fs : Filesystem)
    (urlSegs : List Seg)
    (h : (handleRequest base fs urlSegs).status = 200) :
    ∃ (p : FsPath) (fd : FileData),
      base <+: p ∧ lookupFS fs p = some fd ∧
      (handleRequest base fs urlSegs).body = fd.bytes := by
  rcases hres : resolvePath urlSegs with _ | rel
  · simp [handleRequest, hres] at h
  · rcases hlook : lookupFS fs (base ++ rel) with _ | fd
    · simp [handleRequest, hres, hlook] at h
    · rcases hread : fd.readable with _ | _
      · simp [handleRequest, hres, hlook, hread] at h
      · exact ⟨base ++ rel, fd, ⟨rel, rfl⟩, hlook,
          by simp [handleRequest, hres, hlook, hread]⟩

/-- Witness for C1 at a concrete traversal request: `a/../index.html`
still resolves under the base directory `srv`. -/
theorem handleRequest_stays_in_base_witness :
    ∃ (p : FsPath) (fd : FileData),
      ["srv"] <+: p ∧
      lookupFS [(["srv", "index.html"], ⟨[60], true⟩)] p = some fd ∧
      (handleRequest ["srv"] [(["srv", "index.html"], ⟨[60], true⟩)]
        ["a", "..", "index.html"]).body = fd.bytes :=
  handleRequest_stays_in_base ["srv"] [(["srv", "index.html"], ⟨[60], true⟩)]
    ["a", "..", "index.html"] (by decide)

/-- C2: every file that exists and is readable under the base directory is
served back verbatim: requesting its relative URL yields status 200 and a
body byte-identical to the file's contents. -/
theorem handleRequest_serves_existing (base : FsPath) (fs : Filesystem)
    (rel : List Seg) (fd : FileData)
    (hsimple : ∀ s ∈ rel, simpleSeg s)
    (hlook : lookupFS fs (base ++ rel) = some fd)
    (hread : fd.readable = true) :
    (handleRequest base fs rel).status = 200 ∧
    (handleRequest base fs rel).body = fd.bytes := by
  have hres : resolvePath rel = some rel := by
    simpa using resolveSegs_simple rel [] hsimple
  simp [handleRequest, hres, hlook, hread]

/-- Witness for C2, the spec's concrete scenario: `index.html` containing
`<h1>hi</h1>` is served with status 200 and identical bytes. -/
theorem handleRequest_serves_existing_witness :
    (handleRequest ["srv"]
      [(["srv", "index.html"],
        ⟨[60, 104, 49, 62, 104, 105, 60, 47, 104, 49, 62], true⟩)]
      ["index.html"]).status = 200 ∧
    (handleRequest ["srv"]
      [(["srv", "index.html"],
        ⟨[60, 104, 49, 62, 104, 105, 60, 47, 104, 49, 62], true⟩)]
      ["index.html"]).body = [60, 104, 49, 62, 104, 105, 60, 47, 104, 49, 62] :=
  handleRequest_serves_existing ["srv"]
    [(["srv", "index.html"],
      ⟨[60, 104, 49, 62, 104, 105, 60, 47, 104, 49, 62], true⟩)]
    ["index.html"]
    ⟨[60, 104, 49, 62, 104, 105, 60, 47, 104, 49, 62], true⟩
    (by decide) (by decide) (by decide)

/-- C3: a request that does not resolve to an existing file gets status
404 (including traversal escapes), a permission error gets status 403, and
either way the loop keeps serving: every request in the queue receives a
response. -/
theorem handleRequest_error_statuses (base : FsPath) (fs : Filesystem)
    (urlSegs : List Seg) :
    ((∀ rel, resolvePath urlSegs = some rel →
        lookupFS fs (base ++ rel) = none →
        (handleRequest base fs urlSegs).status = 404) ∧
     (resolvePath urlSegs = none →
        (handleRequest base fs urlSegs).status = 404) ∧
     (∀ rel fd, resolvePath urlSegs = some rel →
        lookupFS fs (base ++ rel) = some fd → fd.readable = false →
        (handleRequest base fs urlSegs).status = 403)) ∧
    ∀ requests : List (List Seg),
      (serveLoop base fs requests).length = requests.length := by
  refine ⟨⟨?_, ?_, ?_⟩, ?_⟩
  · intro rel hres hlook
    simp [handleRequest, hres, hlook]
  · intro hres
    simp [handleRequest, hres]
  · intro rel fd hres hlook hread
    simp [handleRequest, hres, hlook, hread]
  · intro requests
    rw [serveLoop_eq_map]
    exact List.length_map requests (handleRequest base fs)

/-- Witness for C3: a missing file gives 404, a traversal escape gives
404, an unreadable file gives 403, and a two-request queue gets two
responses. -/
theorem handleRequest_error_statuses_witness :
    (handleRequest ["srv"] [(["srv", "locked.txt"], ⟨[7], false⟩)]
      ["missing.txt"]).status = 404 ∧
    (handleRequest ["srv"] [(["srv", "locked.txt"], ⟨[7], false⟩)]
      ["..", "secret"]).status = 404 ∧
    (handleRequest ["srv"] [(["srv", "locked.txt"], ⟨[7], false⟩)]
      ["locked.txt"]).status = 403 ∧
    (serveLoop ["srv"] [(["srv", "locked.txt"], ⟨[7], false⟩)]
      [["missing.txt"], ["locked.txt"]]).length = 2 :=
  ⟨(handleRequest_error_statuses ["srv"]
      [(["srv", "locked.txt"], ⟨[7], false⟩)] ["missing.txt"]).1.1
      ["missing.txt"] (by decide) (by decide),
   (handleRequest_error_statuses ["srv"]
      [(["srv", "locked.txt"], ⟨[7], false⟩)] ["..", "secret"]).1.2.1
      (by decide),
   (handleRequest_error_statuses ["srv"]
      [(["srv", "locked.txt"], ⟨[7], false⟩)] ["locked.txt"]).1.2.2
      ["locked.txt"] ⟨[7], false⟩ (by decide) (by decide) (by decide),
   (handleRequest_error_statuses ["srv"]
      [(["srv", "locked.txt"], ⟨[7], false⟩)] ["missing.txt"]).2
      [["missing.txt"], ["locked.txt"]]⟩

/-- C4: on start the server resolves the base directory to the directory
containing the script, binds to ("", 8000) with address reuse enabled,
prints exactly the two startup lines (listening URL, stop instruction),
and enters the accept loop, answering every queued request with the
handler scoped to the base directory. -/
theorem runMain_startup (scriptPath : FsPath) (fs : Filesystem)
    (requests : List (List Seg)) :
    (runMain scriptPath true fs requests).finalCwd = scriptPath.dropLast ∧
    (runMain scriptPath true fs requests).boundAddr = some ("", 8000) ∧
    (runMain scriptPath true fs requests).reuseAddr = true ∧
    (runMain scriptPath true fs requests).startupLines =
      ["Serving chat app at http://localhost:8000", "Press Ctrl+C to stop"] ∧
    (runMain scriptPath true fs requests).responses =
      requests.map (handleRequest (DIRECTORY scriptPath) fs) := by
  refine ⟨rfl, rfl, rfl, rfl, ?_⟩
  simp [runMain, serveLoop_eq_map]

/-- C5: after the interrupt ends the accept loop, the run prints exactly
one shutdown line, closes the listening socket, and exits with code 0. -/
theorem runMain_interrupt_shutdown (scriptPath : FsPath) (fs : Filesystem)
    (requests : List (List Seg)) :
    (runMain scriptPath true fs requests).exitCode = 0 ∧
    (runMain scriptPath true fs requests).shutdownLines = ["\nServer stopped."] ∧
    (runMain scriptPath true fs requests).socketClosed = true :=
  ⟨rfl, rfl, rfl⟩

/-- C6: when the bind fails, startup aborts: the exit code is nonzero,
exactly one bind attempt is made (no retry), no startup line is printed
and no request is served. -/
theorem runMain_bind_failure (scriptPath : FsPath) (fs : Filesystem)
    (requests : List (List Seg)) :
    (runMain scriptPath false fs requests).exitCode ≠ 0 ∧
    (runMain scriptPath false fs requests).bindAttempts = 1 ∧
    (runMain scriptPath false fs requests).startupLines = [] ∧
    (runMain scriptPath false fs requests).responses = [] := by
  refine ⟨?_, rfl, rfl, rfl⟩
  simp [runMain]

/-- C7: on every run — bind success followed by interrupt, or bind
failure — the listening socket ends closed, and the address-reuse flag of
the run is set, so the port can be rebound. -/
theorem runMain_socket_released (scriptPath : FsPath) (bindOk : Bool)
    (fs : Filesystem) (requests : List (List Seg)) :
    (runMain scriptPath bindOk fs requests).socketClosed = true ∧
    (runMain scriptPath bindOk fs requests).reuseAddr = true := by
  cases bindOk <;> exact ⟨rfl, rfl⟩

/-- C8: serving is sequential: the run's event trace is the block trace in
which each connection is accepted, read, answered and closed before the
next is accepted — connection numbers are nondecreasing along the trace,
so no two connections interleave — and the responses are the pointwise
image of the requests under the handler. -/
theorem runMain_serial (scriptPath : FsPath) (fs : Filesystem)
    (requests : List (List Seg)) :
    (runMain scriptPath true fs requests).events =
      serveTrace requests.length ∧
    List.Pairwise (fun a b : Event => a.conn ≤ b.conn)
      (runMain scriptPath true fs requests).events ∧
    (runMain scriptPath true fs requests).responses =
      requests.map (handleRequest (DIRECTORY scriptPath) fs) := by
  refine ⟨rfl, ?_, ?_⟩
  · exact pairwise_traceFrom requests.length 0
  · simp [runMain, serveLoop_eq_map]

/-- C9: handling a request performs no write: every filesystem operation
the handler emits is a stat or a read, and replaying the handler's
operations on the filesystem leaves it unchanged. -/
theorem handler_no_writes (base : FsPath) (fs : Filesystem)
    (urlSegs : List Seg) :
    (∀ op ∈ handlerOps base fs urlSegs, op.isWrite = false) ∧
    applyOps fs (handlerOps base fs urlSegs) = fs := by
  rcases hres : resolvePath urlSegs with _ | rel
  · constructor
    · intro op h
      simp [handlerOps, hres] at h
    · simp [handlerOps, hres, applyOps]
  · rcases hlook : lookupFS fs (base ++ rel) with _ | fd
    · constructor
      · intro op h
        simp [handlerOps, hres, hlook] at h
        subst h
        rfl
      · simp [handlerOps, hres, hlook, applyOps, applyOp]
    · rcases hread : fd.readable with _ | _
      · constructor
        · intro op h
          simp [handlerOps, hres, hlook, hread] at h
          subst h
          rfl
        · simp [handlerOps, hres, hlook, hread, applyOps, applyOp]
      · constructor
        · intro op h
          simp [handlerOps, hres, hlook, hread] at h
          rcases h with h | h <;> subst h <;> rfl
        · simp [handlerOps, hres, hlook, hread, applyOps, applyOp]

/-- C10: starting the server changes the process's working directory to
the base directory, and the address-reuse class attribute is set by the
module's top level, so merely importing the module sets it — without
touching the working directory — and every server instance created
afterwards reads it back as true. -/
theorem import_and_start_side_effects :
    (∀ st : PyState,
       (importModule st).tcpServerAllowReuseAddress = true ∧
       newServerReuseAddr (importModule st) = true ∧
       (importModule st).cwd = st.cwd) ∧
    (∀ (scriptPath : FsPath) (bindOk : Bool) (fs : Filesystem)
       (requests : List (List Seg)),
       (runMain scriptPath bindOk fs requests).finalCwd =
         DIRECTORY scriptPath) := by
  refine ⟨fun st => ⟨rfl, rfl, rfl⟩, ?_⟩
  intro scriptPath bindOk fs requests
  cases bindOk <;> rfl

end Serve
